import Mathlib

/-!
AzusaBot — a shallow embedding of the session/dispatch core.

This file embeds, as pure Lean functions, the parts of the AzusaBot
WhatsApp bot that the specification's testable properties talk about:

* `extractMessageInfo` and `handleIncomingMessage` (main module,
  message dispatcher);
* `handleConnectionUpdate` and `removeCreds` (main module, connection
  manager);
* `loadCommands` (utils/commandLoader.js, command registry) and the
  registry swap performed by `setupCommandWatcher`.

Modelling conventions:

* JavaScript `undefined`/`null` fields are `Option`; JS truthiness of a
  string value (`""` is falsy) is `jsTruthyStr`.
* A JS `Map` is an association list where `set` shadows earlier
  bindings (`mapSet`/`mapGet`): `get` returns the most recently `set`
  value, as in JS.
* The dedup `NodeCache` (`processedMessagesCache`) is the list of ids
  currently live, i.e. inserted within the TTL; `has` is membership,
  `set` is cons.
* Side effects (read receipts, handler invocation, log lines, the error
  notification `sendMessage`, `process.exit`, credential clearing,
  scheduled reconnects) are recorded as explicit action traces in the
  order the source performs them.
* A field access on `undefined` (e.g. `msg.key.remoteJid` when
  `msg.key` is absent) throws a `TypeError` in JS; `handleIncomingMessage`
  wraps its whole body in `try/catch` whose handler logs the error, so
  such an access is modelled as the trace `[.logOuterError]`.
* A WhatsApp message body object `msg.message` is an association list
  from its keys (the message type tags) to the one sub-field the body
  extraction switch reads from that key's value (`caption`, `text`,
  `selectedButtonId`, ...), collapsed to an `Option String`.
-/

/-- JS truthiness of an optional string: absent and `""` are falsy. -/
def jsTruthyStr : Option String → Bool
  | none => false
  | some s => s ≠ ""

/-- The whitespace characters JS `trim` removes that occur in chat
text (JS trims a larger Unicode set; identical on these inputs). -/
def isJsSpace (c : Char) : Bool := c = ' ' ∨ c = '\t' ∨ c = '\n' ∨ c = '\r'

/-- JS `String.prototype.trim`, over the character list (JS strings are
code-unit sequences; we model them by their characters). -/
def jsTrim (s : String) : String :=
  String.mk (((s.data.dropWhile isJsSpace).reverse.dropWhile isJsSpace).reverse)

/-- JS `String.prototype.startsWith`. -/
def jsStartsWith (s p : String) : Bool := p.data.isPrefixOf s.data

/-- JS `String.prototype.endsWith`. -/
def jsEndsWith (s p : String) : Bool := p.data.isSuffixOf s.data

/-- JS `String.prototype.length` (code units; our inputs are ASCII,
where code units and characters coincide). -/
def jsLength (s : String) : Nat := s.data.length

/-- JS `String.prototype.slice(n)` (code-unit based, hence character
based here, unlike Lean's byte-position `String.drop`). -/
def jsDrop (s : String) (n : Nat) : String := String.mk (s.data.drop n)

/-- JS `String.prototype.toLowerCase` (ASCII case folding; the command
names in play are ASCII). -/
def jsToLower (s : String) : String := String.mk (s.data.map Char.toLower)

/-- Recursion for JS `s.split(/ +/)` over the character list: a space
opens a boundary unless the next character is also a space (so a run
splits once), and a run touching either end of the string contributes
an empty segment there. -/
def jsSplitPlusAux : List Char → List (List Char)
  | [] => [[]]
  | c :: cs =>
    if c = ' ' then
      match cs with
      | [] => [[], []]
      | d :: _ => if d = ' ' then jsSplitPlusAux cs else [] :: jsSplitPlusAux cs
    else
      match jsSplitPlusAux cs with
      | t :: ts => (c :: t) :: ts
      | [] => [[c]]

/-- JS `s.split(/ +/)`. -/
def jsSplitPlus (s : String) : List String :=
  (jsSplitPlusAux s.data).map String.mk

/-- The `msg.key` object: `{ remoteJid, id }`, each possibly absent. -/
structure MsgKey where
  remoteJid : Option String
  id : Option String
deriving DecidableEq, Repr

/-- A Baileys message object, restricted to the fields the dispatcher
reads.  `message` is the body object as an association list from type
tag to the extracted text sub-field (see the header comment). -/
structure Msg where
  key : Option MsgKey
  message : Option (List (String × Option String))
  pushName : Option String
deriving DecidableEq, Repr

/-- Lookup of a property in the modelled `msg.message` object. -/
def jsGet (m : List (String × Option String)) (k : String) : Option String :=
  match m.find? (fun p => p.1 = k) with
  | some p => p.2
  | none => none

/-- The result record of `extractMessageInfo`.  `from` is a Lean
keyword, hence `from_`. -/
structure MsgInfo where
  body : String
  from_ : String
  pushName : String
  isGroup : Bool
  type : String
deriving DecidableEq, Repr

/-- The seven message types whose case in the `switch` of
`extractMessageInfo` extracts a (possibly empty) body. -/
def recognizedTypes : List String :=
  ["conversation", "imageMessage", "videoMessage", "extendedTextMessage",
   "buttonsResponseMessage", "listResponseMessage", "templateButtonReplyMessage"]

/-- The `switch (type)` of `extractMessageInfo`: each recognized case
reads one optional sub-field of `message[type]` and defaults to `""`;
the `default` case yields `""`. -/
def extractBody (message : List (String × Option String)) (type : String) : String :=
  if type ∈ recognizedTypes then (jsGet message type).getD "" else ""

/-- Function `extractMessageInfo(sock, msg)` from the main module.  The guard
`!msg || !msg.key || !msg.key.remoteJid` yields the
`"Unknown"` record; `type` is `Object.keys(message)[0] || ""`; the
`try/catch` around extraction is dead in this model because every
access in the `switch` is optional-chained. -/
def extractMessageInfo (msg : Option Msg) : MsgInfo :=
  match msg with
  | none => ⟨"", "", "Unknown", false, ""⟩
  | some m =>
    match m.key with
    | none => ⟨"", "", "Unknown", false, ""⟩
    | some k =>
      if ¬ jsTruthyStr k.remoteJid then ⟨"", "", "Unknown", false, ""⟩
      else
        let from_ := k.remoteJid.getD ""
        let isGroup := jsEndsWith from_ "@g.us"
        let pushName := if jsTruthyStr m.pushName then m.pushName.getD "" else "User"
        let message := m.message.getD []
        let type := (message.head?.map (fun p => p.1)).getD ""
        ⟨extractBody message type, from_, pushName, isGroup, type⟩

/-- Outcome of invoking a handler's `execute`: returns normally or
throws a fault with the given message. -/
inductive ExecOutcome
  | ok
  | fault (msg : String)
deriving DecidableEq, Repr

/-- The `default` export of a command definition file, restricted to
what the loader validates and the dispatcher uses.  `name` is absent or
a string (`""` is falsy and fails validation); `hasExecute` is the
truthiness of the `execute` property; `aliases` is present only when the
file exports an array; `exec` is the behaviour of `execute` when
invoked. -/
structure CommandFile where
  name : Option String
  hasExecute : Bool
  aliases : Option (List String)
  exec : ExecOutcome
deriving DecidableEq, Repr

/-- The command registry: a JS `Map` from command name/alias to the
command module, as an association list where `set` shadows. -/
abbrev Registry := List (String × CommandFile)

/-- JS `Map.prototype.set`: the new binding shadows any earlier one. -/
def mapSet (m : Registry) (k : String) (v : CommandFile) : Registry :=
  (k, v) :: m.filter (fun p => p.1 ≠ k)

/-- JS `Map.prototype.get` (and `has` via `Option.isSome`). -/
def mapGet (m : Registry) (k : String) : Option CommandFile :=
  (m.find? (fun p => p.1 = k)).map (fun p => p.2)

/-- One observable step of `handleIncomingMessage`, in source order. -/
inductive DispatchAction
  | logDuplicate
  | cacheInsert (id : String)
  | readAck
  | extractInfo
  | prefixScan
  | invokeHandler (command : String) (handler : CommandFile) (args : List String)
  | logExecError (command : String)
  | notifyError (chat : String)
  | logSendError
  | logOuterError
deriving DecidableEq, Repr

/-- Result of one `handleIncomingMessage` call: the trace of observable
actions and the dedup cache afterwards. -/
structure DispatchResult where
  trace : List DispatchAction
  cache : List String
deriving DecidableEq, Repr

/-- Function `handleIncomingMessage(sock, msg, chatUpdate)` from the main
module.  `prefixes` is `config.command.prefixes`, `commands` the
registry, `cache` the live contents of `processedMessagesCache`,
`sendFails` whether the error-notification `sock.sendMessage` throws.
Mirrors the source line by line; see the header comment for how JS
`TypeError`s on absent `key`/`id` are rendered. -/
def handleIncomingMessage (prefixes : List String) (commands : Registry)
    (cache : List String) (sendFails : Bool) (msg : Option Msg) : DispatchResult :=
  match msg with
  | none => ⟨[], cache⟩
  | some m =>
    match m.message with
    | none => ⟨[], cache⟩
    | some _ =>
      match m.key with
      | none => ⟨[.logOuterError], cache⟩
      | some k =>
        if k.remoteJid = some "status@broadcast" then ⟨[], cache⟩
        else
          match k.id with
          | none => ⟨[.logOuterError], cache⟩
          | some id =>
            if jsStartsWith id "BAE5" ∧ jsLength id = 16 then ⟨[], cache⟩
            else if id ∈ cache then ⟨[.logDuplicate], cache⟩
            else
              let cache' := id :: cache
              let info := extractMessageInfo msg
              let pre : List DispatchAction := [.cacheInsert id, .readAck, .extractInfo]
              if info.body = "" ∨ info.from_ = "" then ⟨pre, cache'⟩
              else
                match prefixes.find? (fun p => jsStartsWith info.body p) with
                | none => ⟨pre ++ [.prefixScan], cache'⟩
                | some pfx =>
                  let args := jsSplitPlus (jsTrim (jsDrop info.body (jsLength pfx)))
                  match args with
                  | [] => ⟨pre ++ [.prefixScan], cache'⟩
                  | w :: rest =>
                    let command := jsToLower w
                    if command = "" then ⟨pre ++ [.prefixScan], cache'⟩
                    else
                      match mapGet commands command with
                      | none => ⟨pre ++ [.prefixScan], cache'⟩
                      | some handler =>
                        match handler.exec with
                        | .ok =>
                          ⟨pre ++ [.prefixScan, .invokeHandler command handler rest], cache'⟩
                        | .fault _ =>
                          ⟨pre ++ [.prefixScan, .invokeHandler command handler rest,
                                   .logExecError command, .notifyError info.from_]
                             ++ (if sendFails then [.logSendError] else []), cache'⟩

/-- Number of handler invocations recorded in a trace. -/
def countInvokes (t : List DispatchAction) : Nat :=
  (t.filter (fun a => match a with | .invokeHandler _ _ _ => true | _ => false)).length

/-- Number of error notifications (`sock.sendMessage` of the error
text) recorded in a trace. -/
def countNotifies (t : List DispatchAction) : Nat :=
  (t.filter (fun a => match a with | .notifyError _ => true | _ => false)).length

/-- One observable step of `handleConnectionUpdate`, in source order. -/
inductive ConnAction
  | clearCreds
  | exitProcess
  | scheduleReconnect (delayMs : ℚ)
deriving DecidableEq, Repr

/-- Result of one `handleConnectionUpdate` call: the value of the
module-level `reconnectAttempts` afterwards and the trace of observable
actions. -/
structure ConnResult where
  reconnectAttempts : Nat
  actions : List ConnAction
deriving DecidableEq, Repr

/-- Baileys `DisconnectReason.loggedOut` (the library's numeric value). -/
def DisconnectReasonLoggedOut : Nat := 401

/-- Constant `MAX_RECONNECT_ATTEMPTS` from the main module. -/
def MAX_RECONNECT_ATTEMPTS : Nat := 10

/-- Constant `MAX_RECONNECT_DELAY` from the main module (1 minute). -/
def MAX_RECONNECT_DELAY : ℚ := 60000

/-- JS `Math.min(1000 * Math.pow(1.5, reconnectAttempts), MAX_RECONNECT_DELAY)`.
Exact over ℚ: for the exponents reachable here (≤ 10) the JS double
computation is exact as well. -/
def reconnectDelay (attempts : Nat) : ℚ :=
  min (1000 * (3 / 2 : ℚ) ^ attempts) MAX_RECONNECT_DELAY

/-- A `connection.update` event, restricted to what the handler reads:
`connection` and, for `close`, `lastDisconnect?.error?.output?.statusCode`
(absent when any link of that optional chain is missing). -/
inductive ConnEvent
  | close (statusCode : Option Nat)
  | connecting
  | opened
deriving DecidableEq, Repr

/-- Function `handleConnectionUpdate(sock, update)` from the main module, as a
transition on the `reconnectAttempts` counter emitting its observable
actions.  `statusCode` defaults to 500 (`|| 500`); an
authentication-invalidated close (`loggedOut`/401/403) clears the
credentials then exits; a transient close below the attempt cap
increments the counter and schedules a reconnect after
`reconnectDelay`; at the cap it exits; `open` resets the counter. -/
def handleConnectionUpdate (reconnectAttempts : Nat) (ev : ConnEvent) : ConnResult :=
  match ev with
  | .close sc =>
    let statusCode := sc.getD 500
    if statusCode = DisconnectReasonLoggedOut ∨ statusCode = 401 ∨ statusCode = 403 then
      ⟨reconnectAttempts, [.clearCreds, .exitProcess]⟩
    else if reconnectAttempts < MAX_RECONNECT_ATTEMPTS then
      let a := reconnectAttempts + 1
      ⟨a, [.scheduleReconnect (reconnectDelay a)]⟩
    else
      ⟨reconnectAttempts, [.exitProcess]⟩
  | .connecting => ⟨reconnectAttempts, []⟩
  | .opened => ⟨0, []⟩

/-- Function `removeCreds()` from the main module: `readdir` the session folder
and `unlink` each listed file; returns the session folder contents
afterwards.  The folder state is the list of its files; `unlink` is
`List.erase`. -/
def removeCreds (sessionFiles : List String) : List String :=
  sessionFiles.foldl (fun fs f => fs.erase f) sessionFiles

/-- The result of dynamically importing one `.js` file from the
commands directory: the import threw, the module has no (truthy)
`default`, or it has one. -/
inductive FileLoad
  | importError
  | noDefault
  | loaded (c : CommandFile)
deriving DecidableEq, Repr

/-- The loader's validation: `command.default.name` and
`command.default.execute` must both be truthy. -/
def validCommandFile (c : CommandFile) : Bool :=
  jsTruthyStr c.name && c.hasExecute

/-- Processing of one file inside the loop of `loadCommands`: a
failed import or an invalid structure is skipped (warning logged), otherwise
the module is `set` under its name and then under each alias when
`aliases` is an array. -/
def loadStep (m : Registry) (f : FileLoad) : Registry :=
  match f with
  | .importError => m
  | .noDefault => m
  | .loaded c =>
    if validCommandFile c then
      let m1 := mapSet m (c.name.getD "") c
      match c.aliases with
      | some as => as.foldl (fun acc a => mapSet acc a c) m1
      | none => m1
    else m

/-- Function `loadCommands(commandsDir)` from utils/commandLoader.js, over
the import results of the directory's `.js` files in `readdirSync` order.
Starts from an empty `Map` and folds `loadStep`; the function catches
every per-file error, so it returns a map (never throws) and a later
file's bindings shadow an earlier file's. -/
def loadCommands (files : List FileLoad) : Registry :=
  files.foldl loadStep []

/-- The reload swap in `setupCommandWatcher`: on a successful
`loadCommands` the whole map is assigned (`commands = newCommands`), on
a thrown error the existing map is kept. -/
def watcherSwap (old : Registry) (r : Except Unit Registry) : Registry :=
  match r with
  | .ok newCommands => newCommands
  | .error _ => old

/-- Test fixture: a handler definition unit registered under name
`"yt"` with alias `"ytdl"` whose `execute` returns normally (the
scenario of the prefix/alias resolution property). -/
def ytFile : CommandFile := ⟨some "yt", true, some ["ytdl"], ExecOutcome.ok⟩

/-- Test fixture: the registry loaded from a directory holding only the
`yt` unit. -/
def ytRegistry : Registry := loadCommands [FileLoad.loaded ytFile]

/-- Test fixture: the `yt` unit after a bad edit that removed its
`execute` entry point. -/
def ytBadFile : CommandFile := ⟨some "yt", false, some ["ytdl"], ExecOutcome.ok⟩

/-- Test fixture: a handler whose `execute` throws. -/
def boomFile : CommandFile := ⟨some "boom", true, none, ExecOutcome.fault "boom failed"⟩

/-- Test fixture: the registry loaded from a directory holding only the
`boom` unit. -/
def boomRegistry : Registry := loadCommands [FileLoad.loaded boomFile]

/-- Test fixture: a plain text (`conversation`) message with the given
id, chat jid and body. -/
def mkTextMsg (id jid body : String) : Option Msg :=
  some ⟨some ⟨some jid, some id⟩, some [("conversation", some body)], some "Tester"⟩

/-- Erasing every element of a list (in any order given by a
permutation) from itself empties it: the unlink loop of `removeCreds`
clears the session folder. -/
theorem foldl_erase_self_eq_nil {α : Type} [DecidableEq α] :
    ∀ (ms l : List α), l.Perm ms → ms.foldl List.erase l = [] := by
  intro ms
  induction ms with
  | nil => intro l h; simpa using h.eq_nil
  | cons a ms ih =>
    intro l h
    have h' : (l.erase a).Perm ms := by
      have := h.erase a
      rwa [List.erase_cons_head] at this
    simpa using ih (l.erase a) h'

/-- `removeCreds` leaves the session folder empty. -/
theorem removeCreds_clears (files : List String) : removeCreds files = [] :=
  foldl_erase_self_eq_nil files files (List.Perm.refl files)

/-- Finding by one key is unaffected by filtering out another key. -/
theorem find?_filter_ne (m : Registry) (k key : String) (h : key ≠ k) :
    (m.filter (fun p => p.1 ≠ k)).find? (fun p => p.1 = key) =
      m.find? (fun p => p.1 = key) := by
  rw [List.find?_filter]
  congr 1
  funext a
  by_cases ha : a.1 = key
  · have hak : a.1 ≠ k := by rw [ha]; exact h
    simp [ha, hak, h]
  · simp [ha]

/-- Lookup after a JS `Map.set`. -/
theorem mapGet_mapSet (m : Registry) (k k' : String) (v : CommandFile) :
    mapGet (mapSet m k v) k' = if k' = k then some v else mapGet m k' := by
  by_cases h : k' = k
  · subst h; simp [mapGet, mapSet, List.find?_cons]
  · have h' : ¬ (k = k') := fun e => h e.symm
    rw [if_neg h]
    unfold mapGet mapSet
    rw [List.find?_cons_of_neg _ (by simpa using h'), find?_filter_ne m k k' h]

/-- Lookup after the alias-registration loop of the loader. -/
theorem mapGet_aliasFold (as : List String) (m : Registry) (c : CommandFile)
    (k : String) :
    mapGet (as.foldl (fun acc a => mapSet acc a c) m) k =
      if k ∈ as then some c else mapGet m k := by
  induction as generalizing m with
  | nil => simp
  | cons a as ih =>
    simp only [List.foldl_cons, ih, mapGet_mapSet, List.mem_cons]
    by_cases hin : k ∈ as
    · simp [hin]
    · by_cases hka : k = a <;> simp [hin, hka]

/-- The duplicate branch of the dispatcher: an id already in the dedup
cache yields only the informational duplicate log. -/
theorem dispatch_dup (prefixes : List String) (commands : Registry)
    (cache : List String) (sendFails : Bool) (m : Msg) (k : MsgKey)
    (id : String) (c : List (String × Option String))
    (hmsg : m.message = some c) (hkey : m.key = some k)
    (hjid : ¬ k.remoteJid = some "status@broadcast") (hid : k.id = some id)
    (hbae : ¬ (jsStartsWith id "BAE5" = true ∧ jsLength id = 16))
    (hcache : id ∈ cache) :
    handleIncomingMessage prefixes commands cache sendFails (some m) =
      ⟨[DispatchAction.logDuplicate], cache⟩ := by
  unfold handleIncomingMessage
  dsimp only
  rw [hmsg]
  dsimp only
  rw [hkey]
  dsimp only
  rw [if_neg hjid, hid]
  dsimp only
  rw [if_neg hbae, if_pos hcache]

/-- After the filters and a fresh id, the dispatcher always inserts the
id then acknowledges then extracts, invokes at most one handler, and
returns the cache extended with the id. -/
theorem dispatch_pastFilters (prefixes : List String) (commands : Registry)
    (cache : List String) (sendFails : Bool) (m : Msg) (k : MsgKey)
    (id : String) (c : List (String × Option String))
    (hmsg : m.message = some c) (hkey : m.key = some k)
    (hjid : ¬ k.remoteJid = some "status@broadcast") (hid : k.id = some id)
    (hbae : ¬ (jsStartsWith id "BAE5" = true ∧ jsLength id = 16))
    (hcache : id ∉ cache) :
    ∃ rest,
      handleIncomingMessage prefixes commands cache sendFails (some m) =
        ⟨DispatchAction.cacheInsert id :: DispatchAction.readAck ::
          DispatchAction.extractInfo :: rest, id :: cache⟩ ∧
      countInvokes rest ≤ 1 := by
  unfold handleIncomingMessage
  dsimp only
  rw [hmsg]
  dsimp only
  rw [hkey]
  dsimp only
  rw [if_neg hjid, hid]
  dsimp only
  rw [if_neg hbae, if_neg hcache]
  split
  · exact ⟨[], rfl, by simp [countInvokes]⟩
  · split
    · exact ⟨[DispatchAction.prefixScan], rfl, by simp [countInvokes]⟩
    · split
      · exact ⟨[DispatchAction.prefixScan], rfl, by simp [countInvokes]⟩
      · split
        · exact ⟨[DispatchAction.prefixScan], rfl, by simp [countInvokes]⟩
        · split
          · exact ⟨[DispatchAction.prefixScan], rfl, by simp [countInvokes]⟩
          · split
            · exact ⟨[DispatchAction.prefixScan, DispatchAction.invokeHandler _ _ _],
                rfl, by simp [countInvokes]⟩
            · refine ⟨[DispatchAction.prefixScan, DispatchAction.invokeHandler _ _ _,
                DispatchAction.logExecError _, DispatchAction.notifyError _] ++
                  (if sendFails then [DispatchAction.logSendError] else []),
                rfl, ?_⟩
              cases sendFails <;> simp [countInvokes]

/-- The backoff delay is monotone in the attempt count. -/
theorem reconnectDelay_mono (a b : Nat) (h : a ≤ b) :
    reconnectDelay a ≤ reconnectDelay b := by
  unfold reconnectDelay
  refine min_le_min ?_ le_rfl
  have h32 : (1 : ℚ) ≤ 3 / 2 := by norm_num
  exact mul_le_mul_of_nonneg_left (pow_le_pow_right₀ h32 h) (by norm_num)

/-- The backoff delay never exceeds the 60000 ms cap. -/
theorem reconnectDelay_le_cap (a : Nat) : reconnectDelay a ≤ 60000 := by
  unfold reconnectDelay MAX_RECONNECT_DELAY
  exact min_le_right _ _

/-- Under a present, nonempty `remoteJid`, the extracted `from` is that
jid. -/
theorem extract_jid (m : Msg) (k : MsgKey) (jid : String)
    (hkey : m.key = some k) (hjid : k.remoteJid = some jid) (hne : jid ≠ "") :
    (extractMessageInfo (some m)).from_ = jid := by
  unfold extractMessageInfo
  dsimp only
  rw [hkey]
  dsimp only
  rw [hjid]
  simp [jsTruthyStr, hne]

/-- The `default` case of the extraction switch yields an empty body. -/
theorem extractBody_not_recognized (message : List (String × Option String))
    (t : String) (h : t ∉ recognizedTypes) : extractBody message t = "" := by
  unfold extractBody
  rw [if_neg h]

/-- C1: a message whose identifier is already in the dedup cache is
dropped with only the informational duplicate log — no read receipt, no
prefix matching, no handler invocation — and for an identifier delivered
twice within the TTL the handler runs only on the first delivery: the
first delivery invokes at most one handler and the second delivery,
against the cache the first one produced, performs nothing but the
duplicate log, so a handler dispatched on the first delivery is executed
exactly once. -/
theorem C1_dedup_exactly_once (prefixes : List String) (commands : Registry)
    (cache : List String) (sendFails : Bool) (m : Msg) (k : MsgKey)
    (id : String) (c : List (String × Option String))
    (hmsg : m.message = some c) (hkey : m.key = some k)
    (hjid : ¬ k.remoteJid = some "status@broadcast") (hid : k.id = some id)
    (hbae : ¬ (jsStartsWith id "BAE5" = true ∧ jsLength id = 16)) :
    (id ∈ cache →
      handleIncomingMessage prefixes commands cache sendFails (some m) =
        ⟨[DispatchAction.logDuplicate], cache⟩) ∧
    (id ∉ cache →
      countInvokes
        (handleIncomingMessage prefixes commands cache sendFails (some m)).trace ≤ 1 ∧
      handleIncomingMessage prefixes commands
          (handleIncomingMessage prefixes commands cache sendFails (some m)).cache
          sendFails (some m) =
        ⟨[DispatchAction.logDuplicate],
         (handleIncomingMessage prefixes commands cache sendFails (some m)).cache⟩) := by
  constructor
  · intro hcache
    exact dispatch_dup prefixes commands cache sendFails m k id c
      hmsg hkey hjid hid hbae hcache
  · intro hcache
    obtain ⟨rest, heq, hcount⟩ := dispatch_pastFilters prefixes commands cache
      sendFails m k id c hmsg hkey hjid hid hbae hcache
    refine ⟨?_, ?_⟩
    · rw [heq]
      simpa [countInvokes] using hcount
    · rw [heq]
      exact dispatch_dup prefixes commands (id :: cache) sendFails m k id c
        hmsg hkey hjid hid hbae (List.mem_cons_self id cache)

/-- Closed witness for the dedup theorem: concrete duplicate and fresh
deliveries of the fixture message. -/
theorem C1_dedup_exactly_once_witness :
    (handleIncomingMessage ["/", "!", "."] ytRegistry ["A1"] false
        (mkTextMsg "A1" "123@s.whatsapp.net" "/yt foo") =
      ⟨[DispatchAction.logDuplicate], ["A1"]⟩) ∧
    (countInvokes
        (handleIncomingMessage ["/", "!", "."] ytRegistry [] false
          (mkTextMsg "A1" "123@s.whatsapp.net" "/yt foo")).trace ≤ 1 ∧
      handleIncomingMessage ["/", "!", "."] ytRegistry
          (handleIncomingMessage ["/", "!", "."] ytRegistry [] false
            (mkTextMsg "A1" "123@s.whatsapp.net" "/yt foo")).cache
          false (mkTextMsg "A1" "123@s.whatsapp.net" "/yt foo") =
        ⟨[DispatchAction.logDuplicate],
         (handleIncomingMessage ["/", "!", "."] ytRegistry [] false
           (mkTextMsg "A1" "123@s.whatsapp.net" "/yt foo")).cache⟩) :=
  ⟨(C1_dedup_exactly_once ["/", "!", "."] ytRegistry ["A1"] false _ _ "A1" _
      rfl rfl (by decide) rfl (by decide)).1 (by decide),
   (C1_dedup_exactly_once ["/", "!", "."] ytRegistry [] false _ _ "A1" _
      rfl rfl (by decide) rfl (by decide)).2 (by decide)⟩

/-- C9: every event that passes the initial filters with a fresh id has
that id inserted into the dedup cache as the very first action, before
the read receipt, the body extraction and whatever follows (prefix
matching, lookup, handler invocation — all inside `rest`); the resulting
cache holds the id regardless of how the rest went (empty body, no
prefix, unknown command, handler fault), and a redelivery of the same id
against that cache is dropped with only the duplicate log: there is no
retry path for failed or skipped handling. -/
theorem C9_insert_then_process (prefixes : List String) (commands : Registry)
    (cache : List String) (sendFails : Bool) (m : Msg) (k : MsgKey)
    (id : String) (c : List (String × Option String))
    (hmsg : m.message = some c) (hkey : m.key = some k)
    (hjid : ¬ k.remoteJid = some "status@broadcast") (hid : k.id = some id)
    (hbae : ¬ (jsStartsWith id "BAE5" = true ∧ jsLength id = 16))
    (hcache : id ∉ cache) :
    ∃ rest,
      handleIncomingMessage prefixes commands cache sendFails (some m) =
        ⟨DispatchAction.cacheInsert id :: DispatchAction.readAck ::
          DispatchAction.extractInfo :: rest, id :: cache⟩ ∧
      handleIncomingMessage prefixes commands (id :: cache) sendFails (some m) =
        ⟨[DispatchAction.logDuplicate], id :: cache⟩ := by
  obtain ⟨rest, heq, -⟩ := dispatch_pastFilters prefixes commands cache sendFails
    m k id c hmsg hkey hjid hid hbae hcache
  exact ⟨rest, heq,
    dispatch_dup prefixes commands (id :: cache) sendFails m k id c
      hmsg hkey hjid hid hbae (List.mem_cons_self id cache)⟩

/-- Closed witness for the insert-then-process theorem: a fixture
message whose command is unknown still consumes its dedup entry. -/
theorem C9_insert_then_process_witness :
    ∃ rest,
      handleIncomingMessage ["/", "!", "."] ytRegistry [] false
          (mkTextMsg "B7" "123@s.whatsapp.net" "/nosuchcmd") =
        ⟨DispatchAction.cacheInsert "B7" :: DispatchAction.readAck ::
          DispatchAction.extractInfo :: rest, ["B7"]⟩ ∧
      handleIncomingMessage ["/", "!", "."] ytRegistry ["B7"] false
          (mkTextMsg "B7" "123@s.whatsapp.net" "/nosuchcmd") =
        ⟨[DispatchAction.logDuplicate], ["B7"]⟩ :=
  C9_insert_then_process ["/", "!", "."] ytRegistry [] false _ _ "B7" _
    rfl rfl (by decide) rfl (by decide) (by decide)

/-- C10: `extractMessageInfo` is total in this model (it is a Lean
function into the full `MsgInfo` record, so every input yields all of
`body`, `from`, `pushName`, `isGroup`, `type` without raising); an
absent message object, an absent `key`, or an absent `remoteJid` yields
body `""`, from `""`, pushName `"Unknown"`; any message type outside the
seven recognized kinds yields body `""`; and an event whose extraction
gives an empty body is dropped by the dispatcher right after the read
receipt — no prefix matching, no handler, no fault. -/
theorem C10_extract_total :
    (extractMessageInfo none = ⟨"", "", "Unknown", false, ""⟩) ∧
    (∀ m : Msg, m.key = none →
      extractMessageInfo (some m) = ⟨"", "", "Unknown", false, ""⟩) ∧
    (∀ (m : Msg) (k : MsgKey), m.key = some k → k.remoteJid = none →
      extractMessageInfo (some m) = ⟨"", "", "Unknown", false, ""⟩) ∧
    (∀ msg : Option Msg, (extractMessageInfo msg).type ∉ recognizedTypes →
      (extractMessageInfo msg).body = "") ∧
    (∀ (prefixes : List String) (commands : Registry) (cache : List String)
        (sendFails : Bool) (m : Msg) (k : MsgKey) (id : String)
        (c : List (String × Option String)),
      m.message = some c → m.key = some k →
      ¬ k.remoteJid = some "status@broadcast" → k.id = some id →
      ¬ (jsStartsWith id "BAE5" = true ∧ jsLength id = 16) → id ∉ cache →
      (extractMessageInfo (some m)).body = "" →
      handleIncomingMessage prefixes commands cache sendFails (some m) =
        ⟨[DispatchAction.cacheInsert id, DispatchAction.readAck,
          DispatchAction.extractInfo], id :: cache⟩) := by
  refine ⟨rfl, ?_, ?_, ?_, ?_⟩
  · intro m h
    unfold extractMessageInfo
    dsimp only
    rw [h]
  · intro m k hkey hjid
    unfold extractMessageInfo
    dsimp only
    rw [hkey]
    dsimp only
    rw [hjid]
    simp [jsTruthyStr]
  · intro msg h
    rcases msg with _ | m
    · rfl
    · rcases hk : m.key with _ | k
      · simp [extractMessageInfo, hk]
      · unfold extractMessageInfo at h ⊢
        dsimp only at h ⊢
        rw [hk] at h ⊢
        dsimp only at h ⊢
        by_cases ht : ¬ jsTruthyStr k.remoteJid = true
        · rw [if_pos ht]
        · rw [if_neg ht] at h ⊢
          dsimp only at h ⊢
          exact extractBody_not_recognized _ _ h
  · intro prefixes commands cache sendFails m k id c hmsg hkey hjid hid hbae hcache hbody
    unfold handleIncomingMessage
    dsimp only
    rw [hmsg]
    dsimp only
    rw [hkey]
    dsimp only
    rw [if_neg hjid, hid]
    dsimp only
    rw [if_neg hbae, if_neg hcache, if_pos (Or.inl hbody)]

/-- Closed witness for the extraction-totality theorem: a sticker
message (unrecognized type) is acknowledged and then dropped at the
empty-body check. -/
theorem C10_extract_total_witness :
    ((extractMessageInfo (some ⟨some ⟨some "123@s.whatsapp.net", some "S1"⟩,
        some [("stickerMessage", none)], some "Tester"⟩)).body = "") ∧
    handleIncomingMessage ["/", "!", "."] ytRegistry [] false
        (some ⟨some ⟨some "123@s.whatsapp.net", some "S1"⟩,
          some [("stickerMessage", none)], some "Tester"⟩) =
      ⟨[DispatchAction.cacheInsert "S1", DispatchAction.readAck,
        DispatchAction.extractInfo], ["S1"]⟩ :=
  ⟨C10_extract_total.2.2.2.1 _ (by decide),
   C10_extract_total.2.2.2.2 ["/", "!", "."] ytRegistry [] false _ _ "S1" _
     rfl rfl (by decide) rfl (by decide) (by decide)
     (C10_extract_total.2.2.2.1 _ (by decide))⟩

/-- C8 counterexample: an event with an *empty* (not absent) identifier
is not rejected — the dispatcher acknowledges it read and invokes its
handler — refuting the claim that empty-identifier events invoke no
handler and get no read receipt. -/
theorem C8_filters_cex :
    DispatchAction.readAck ∈
      (handleIncomingMessage ["/", "!", "."] ytRegistry [] false
        (mkTextMsg "" "123@s.whatsapp.net" "/yt foo")).trace ∧
    countInvokes
      (handleIncomingMessage ["/", "!", "."] ytRegistry [] false
        (mkTextMsg "" "123@s.whatsapp.net" "/yt foo")).trace = 1 := by
  constructor
  · decide
  · decide

/-- C8 amended: events with an absent message payload, with the
`status@broadcast` chat target, or with an identifier matching the
`BAE5…` 16-character synthetic pattern are silent no-ops; an absent
`key` or an absent identifier instead hits the dispatcher's outer
`catch`, which logs an error; an empty identifier is not filtered at
all (see the counterexample). -/
theorem C8_filters_amended (prefixes : List String) (commands : Registry)
    (cache : List String) (sendFails : Bool) :
    (handleIncomingMessage prefixes commands cache sendFails none = ⟨[], cache⟩) ∧
    (∀ m : Msg, m.message = none →
      handleIncomingMessage prefixes commands cache sendFails (some m) = ⟨[], cache⟩) ∧
    (∀ (m : Msg) (c : List (String × Option String)), m.message = some c →
      m.key = none →
      handleIncomingMessage prefixes commands cache sendFails (some m) =
        ⟨[DispatchAction.logOuterError], cache⟩) ∧
    (∀ (m : Msg) (c : List (String × Option String)) (k : MsgKey),
      m.message = some c → m.key = some k →
      k.remoteJid = some "status@broadcast" →
      handleIncomingMessage prefixes commands cache sendFails (some m) = ⟨[], cache⟩) ∧
    (∀ (m : Msg) (c : List (String × Option String)) (k : MsgKey),
      m.message = some c → m.key = some k →
      ¬ k.remoteJid = some "status@broadcast" → k.id = none →
      handleIncomingMessage prefixes commands cache sendFails (some m) =
        ⟨[DispatchAction.logOuterError], cache⟩) ∧
    (∀ (m : Msg) (c : List (String × Option String)) (k : MsgKey) (id : String),
      m.message = some c → m.key = some k →
      ¬ k.remoteJid = some "status@broadcast" → k.id = some id →
      jsStartsWith id "BAE5" = true → jsLength id = 16 →
      handleIncomingMessage prefixes commands cache sendFails (some m) = ⟨[], cache⟩) := by
  refine ⟨rfl, ?_, ?_, ?_, ?_, ?_⟩
  · intro m h
    unfold handleIncomingMessage
    dsimp only
    rw [h]
  · intro m c hmsg hkey
    unfold handleIncomingMessage
    dsimp only
    rw [hmsg]
    dsimp only
    rw [hkey]
  · intro m c k hmsg hkey hjid
    unfold handleIncomingMessage
    dsimp only
    rw [hmsg]
    dsimp only
    rw [hkey]
    dsimp only
    rw [if_pos hjid]
  · intro m c k hmsg hkey hjid hid
    unfold handleIncomingMessage
    dsimp only
    rw [hmsg]
    dsimp only
    rw [hkey]
    dsimp only
    rw [if_neg hjid, hid]
  · intro m c k id hmsg hkey hjid hid hbae hlen
    unfold handleIncomingMessage
    dsimp only
    rw [hmsg]
    dsimp only
    rw [hkey]
    dsimp only
    rw [if_neg hjid, hid]
    dsimp only
    rw [if_pos ⟨hbae, hlen⟩]

/-- Closed witness for the amended filter theorem: a status broadcast
and a synthetic-id event are silent no-ops. -/
theorem C8_filters_amended_witness :
    (handleIncomingMessage ["/", "!", "."] ytRegistry [] false
        (mkTextMsg "Z1" "status@broadcast" "/yt foo") = ⟨[], []⟩) ∧
    (handleIncomingMessage ["/", "!", "."] ytRegistry [] false
        (mkTextMsg "BAE5AAAAAAAAAAAA" "123@s.whatsapp.net" "/yt foo") = ⟨[], []⟩) :=
  ⟨(C8_filters_amended ["/", "!", "."] ytRegistry [] false).2.2.2.1 _ _ _
      rfl rfl rfl,
   (C8_filters_amended ["/", "!", "."] ytRegistry [] false).2.2.2.2.2 _ _ _
      "BAE5AAAAAAAAAAAA" rfl rfl (by decide) rfl (by decide) (by decide)⟩

/-- C4: when the resolved handler's `execute` throws during dispatch,
the fault is caught at the dispatch boundary and logged with the
command name, exactly one error notification is attempted to the
originating chat, a failure of that notification is only logged (not
re-raised), and `handleIncomingMessage` returns normally with the
stated trace — the outer catch never fires, so the dispatcher is ready
for the next message. -/
theorem C4_handler_fault (prefixes : List String) (commands : Registry)
    (cache : List String) (m : Msg) (k : MsgKey) (id jid : String)
    (c : List (String × Option String)) (pfx w cmd emsg : String)
    (args : List String) (handler : CommandFile)
    (hmsg : m.message = some c) (hkey : m.key = some k)
    (hjid : k.remoteJid = some jid) (hjidb : jid ≠ "status@broadcast")
    (hjidne : jid ≠ "") (hid : k.id = some id)
    (hbae : ¬ (jsStartsWith id "BAE5" = true ∧ jsLength id = 16))
    (hcache : id ∉ cache)
    (hbody : ¬ (extractMessageInfo (some m)).body = "")
    (hfind : prefixes.find? (fun p => jsStartsWith (extractMessageInfo (some m)).body p) =
      some pfx)
    (hsplit : jsSplitPlus (jsTrim (jsDrop (extractMessageInfo (some m)).body (jsLength pfx))) =
      w :: args)
    (hcmd : jsToLower w = cmd) (hcmdne : ¬ cmd = "")
    (hget : mapGet commands cmd = some handler)
    (hexec : handler.exec = ExecOutcome.fault emsg) :
    ∀ sendFails : Bool,
      handleIncomingMessage prefixes commands cache sendFails (some m) =
        ⟨[DispatchAction.cacheInsert id, DispatchAction.readAck,
          DispatchAction.extractInfo, DispatchAction.prefixScan,
          DispatchAction.invokeHandler cmd handler args,
          DispatchAction.logExecError cmd, DispatchAction.notifyError jid]
            ++ (if sendFails then [DispatchAction.logSendError] else []),
         id :: cache⟩ ∧
      countNotifies
        (handleIncomingMessage prefixes commands cache sendFails (some m)).trace = 1 := by
  intro sendFails
  have hfrom : (extractMessageInfo (some m)).from_ = jid :=
    extract_jid m k jid hkey hjid hjidne
  have hmain :
      handleIncomingMessage prefixes commands cache sendFails (some m) =
        ⟨[DispatchAction.cacheInsert id, DispatchAction.readAck,
          DispatchAction.extractInfo, DispatchAction.prefixScan,
          DispatchAction.invokeHandler cmd handler args,
          DispatchAction.logExecError cmd, DispatchAction.notifyError jid]
            ++ (if sendFails then [DispatchAction.logSendError] else []),
         id :: cache⟩ := by
    unfold handleIncomingMessage
    dsimp only
    rw [hmsg]
    dsimp only
    rw [hkey]
    dsimp only
    rw [if_neg (by rw [hjid]; simpa using hjidb), hid]
    dsimp only
    rw [if_neg hbae, if_neg hcache]
    rw [if_neg (by rw [hfrom]; exact fun h => h.elim hbody hjidne)]
    rw [hfind]
    dsimp only
    rw [hsplit]
    dsimp only
    rw [hcmd, if_neg hcmdne, hget]
    dsimp only
    rw [hexec, hfrom]
    rfl
  refine ⟨hmain, ?_⟩
  rw [hmain]
  cases sendFails <;> simp [countNotifies]

/-- Closed witness for the handler-fault theorem: the `boom` fixture
handler throws and the error notification itself fails. -/
theorem C4_handler_fault_witness :
    handleIncomingMessage ["/"] boomRegistry [] true
        (mkTextMsg "B1" "user@s.whatsapp.net" "/boom a b") =
      ⟨[DispatchAction.cacheInsert "B1", DispatchAction.readAck,
        DispatchAction.extractInfo, DispatchAction.prefixScan,
        DispatchAction.invokeHandler "boom" boomFile ["a", "b"],
        DispatchAction.logExecError "boom", DispatchAction.notifyError "user@s.whatsapp.net"]
          ++ (if true then [DispatchAction.logSendError] else []),
       ["B1"]⟩ ∧
    countNotifies
      (handleIncomingMessage ["/"] boomRegistry [] true
        (mkTextMsg "B1" "user@s.whatsapp.net" "/boom a b")).trace = 1 :=
  C4_handler_fault ["/"] boomRegistry [] _ _ "B1" "user@s.whatsapp.net" _
    "/" "boom" "boom" "boom failed" ["a", "b"] boomFile
    rfl rfl rfl (by decide) (by decide) rfl (by decide) (by decide)
    (by decide) (by decide) (by decide) (by decide) (by decide)
    (by decide) rfl true

/-- C5: with prefixes `["/", "!", "."]` and the registry loaded from a
unit named `"yt"` with alias `"ytdl"`, the inputs `"/yt foo"`,
`"!ytdl foo"` and `".YT foo"` all dispatch to that same handler object
with args `["foo"]` (the prefix list is scanned in configured order,
the first token of the remainder is case-folded for the lookup), while
`"yt foo"` without a prefix invokes no handler. -/
theorem C5_prefix_alias_resolution :
    (handleIncomingMessage ["/", "!", "."] ytRegistry [] false
        (mkTextMsg "A1" "123@s.whatsapp.net" "/yt foo") =
      ⟨[DispatchAction.cacheInsert "A1", DispatchAction.readAck,
        DispatchAction.extractInfo, DispatchAction.prefixScan,
        DispatchAction.invokeHandler "yt" ytFile ["foo"]], ["A1"]⟩) ∧
    (handleIncomingMessage ["/", "!", "."] ytRegistry [] false
        (mkTextMsg "A2" "123@s.whatsapp.net" "!ytdl foo") =
      ⟨[DispatchAction.cacheInsert "A2", DispatchAction.readAck,
        DispatchAction.extractInfo, DispatchAction.prefixScan,
        DispatchAction.invokeHandler "ytdl" ytFile ["foo"]], ["A2"]⟩) ∧
    (handleIncomingMessage ["/", "!", "."] ytRegistry [] false
        (mkTextMsg "A3" "123@s.whatsapp.net" ".YT foo") =
      ⟨[DispatchAction.cacheInsert "A3", DispatchAction.readAck,
        DispatchAction.extractInfo, DispatchAction.prefixScan,
        DispatchAction.invokeHandler "yt" ytFile ["foo"]], ["A3"]⟩) ∧
    (handleIncomingMessage ["/", "!", "."] ytRegistry [] false
        (mkTextMsg "A4" "123@s.whatsapp.net" "yt foo") =
      ⟨[DispatchAction.cacheInsert "A4", DispatchAction.readAck,
        DispatchAction.extractInfo, DispatchAction.prefixScan], ["A4"]⟩) := by
  refine ⟨?_, ?_, ?_, ?_⟩ <;> decide

/-- C6 counterexample: the commands directory holds a single unit
`yt`; a bad edit removes its `execute`, the watcher reload succeeds
(the loader skips the invalid unit and returns without throwing), and
the whole-map assignment installs the *empty* registry — refuting "the
dispatch path never observes a partially-built or empty registry as a
result of a bad edit to a handler definition". -/
theorem C6_reload_cex :
    watcherSwap ytRegistry (Except.ok (loadCommands [FileLoad.loaded ytBadFile])) = [] ∧
    ytRegistry ≠ [] := by
  constructor
  · decide
  · decide

/-- C6 amended: a reload replaces the registry by a single whole-map
assignment (readers see either the old or the new complete map), and a
reload whose `loadCommands` call throws leaves the previous mapping in
effect; but a bad edit to a handler definition does not make the load
throw — the invalid unit is skipped — so when every unit in the
directory is invalid the newly installed registry is empty. -/
theorem C6_reload_amended :
    (∀ old : Registry, watcherSwap old (Except.error ()) = old) ∧
    (∀ (old newCommands : Registry),
      watcherSwap old (Except.ok newCommands) = newCommands) ∧
    (∀ (old : Registry) (files : List FileLoad),
      watcherSwap old (Except.ok (loadCommands files)) = loadCommands files) :=
  ⟨fun _ => rfl, fun _ _ => rfl, fun _ _ => rfl⟩

/-- C7: `loadCommands` skips a unit whose import throws, a unit with no
usable default export, and a unit missing a (truthy) name or execute —
leaving the registry exactly as built from the remaining units — and
installs a valid unit under its name and under every alias, all bound
to the same module object, shadowing any earlier binding of those keys
(last-loaded wins) while every other key keeps its previous
resolution. -/
theorem C7_loader_inserts_and_skips :
    (∀ files : List FileLoad,
      loadCommands (files ++ [FileLoad.importError]) = loadCommands files) ∧
    (∀ files : List FileLoad,
      loadCommands (files ++ [FileLoad.noDefault]) = loadCommands files) ∧
    (∀ (files : List FileLoad) (c : CommandFile), validCommandFile c = false →
      loadCommands (files ++ [FileLoad.loaded c]) = loadCommands files) ∧
    (∀ (files : List FileLoad) (c : CommandFile) (n : String),
      c.name = some n → n ≠ "" → c.hasExecute = true →
      ∀ key : String,
        mapGet (loadCommands (files ++ [FileLoad.loaded c])) key =
          if key = n ∨ key ∈ c.aliases.getD [] then some c
          else mapGet (loadCommands files) key) := by
  refine ⟨?_, ?_, ?_, ?_⟩
  · intro files
    rw [loadCommands, List.foldl_append]
    rfl
  · intro files
    rw [loadCommands, List.foldl_append]
    rfl
  · intro files c hinvalid
    rw [loadCommands, List.foldl_append]
    show loadStep (loadCommands files) (FileLoad.loaded c) = _
    unfold loadStep
    dsimp only
    rw [if_neg (by simp [hinvalid])]
  · intro files c n hname hne hexec key
    have hvalid : validCommandFile c = true := by
      simp [validCommandFile, hname, hexec, jsTruthyStr, hne]
    rw [loadCommands, List.foldl_append]
    show mapGet (loadStep (loadCommands files) (FileLoad.loaded c)) key = _
    unfold loadStep
    dsimp only
    rw [if_pos hvalid]
    rw [hname]
    cases halias : c.aliases with
    | none =>
      dsimp only [Option.getD]
      rw [mapGet_mapSet]
      by_cases hk : key = n <;> simp [hk]
    | some as =>
      dsimp only [Option.getD]
      rw [mapGet_aliasFold, mapGet_mapSet]
      by_cases hin : key ∈ as
      · simp [hin]
      · by_cases hk : key = n <;> simp [hin, hk]

/-- Closed witness for the loader theorem: an import error is skipped,
and a valid unit resolves under both its name and its alias while an
unrelated key is untouched. -/
theorem C7_loader_inserts_and_skips_witness :
    (loadCommands [FileLoad.loaded boomFile, FileLoad.importError] =
      loadCommands [FileLoad.loaded boomFile]) ∧
    (mapGet (loadCommands [FileLoad.loaded boomFile, FileLoad.loaded ytFile]) "yt" =
      if ("yt" : String) = "yt" ∨ ("yt" : String) ∈ (ytFile.aliases.getD []) then some ytFile
      else mapGet (loadCommands [FileLoad.loaded boomFile]) "yt") ∧
    (mapGet (loadCommands [FileLoad.loaded boomFile, FileLoad.loaded ytFile]) "ytdl" =
      if ("ytdl" : String) = "yt" ∨ ("ytdl" : String) ∈ (ytFile.aliases.getD []) then some ytFile
      else mapGet (loadCommands [FileLoad.loaded boomFile]) "ytdl") ∧
    (mapGet (loadCommands [FileLoad.loaded boomFile, FileLoad.loaded ytFile]) "boom" =
      if ("boom" : String) = "yt" ∨ ("boom" : String) ∈ (ytFile.aliases.getD []) then some ytFile
      else mapGet (loadCommands [FileLoad.loaded boomFile]) "boom") :=
  ⟨C7_loader_inserts_and_skips.1 [FileLoad.loaded boomFile],
   C7_loader_inserts_and_skips.2.2.2 [FileLoad.loaded boomFile] ytFile "yt"
     rfl (by decide) rfl "yt",
   C7_loader_inserts_and_skips.2.2.2 [FileLoad.loaded boomFile] ytFile "yt"
     rfl (by decide) rfl "ytdl",
   C7_loader_inserts_and_skips.2.2.2 [FileLoad.loaded boomFile] ytFile "yt"
     rfl (by decide) rfl "boom"⟩

/-- C2 counterexample: a transient close (status 500) arriving when the
attempt counter already equals `MAX_RECONNECT_ATTEMPTS` (10) does not
increment the counter and schedules no retry — the process exits
instead — refuting the claim that *every* transient close increments
the counter and produces a `min(1000·1.5^n, 60000)` delay. -/
theorem C2_backoff_cex :
    (handleConnectionUpdate 10 (ConnEvent.close (some 500))).reconnectAttempts ≠ 10 + 1 ∧
    (handleConnectionUpdate 10 (ConnEvent.close (some 500))).actions =
      [ConnAction.exitProcess] := by
  constructor
  · decide
  · decide

/-- C2 amended: on a transient close (status not loggedOut/401/403)
*while fewer than 10 attempts have been made*, the counter is
incremented and a retry is scheduled after exactly
`min(1000 · 1.5^attemptCount, 60000)` ms (with the incremented count);
the delay is monotone in the attempt count — so consecutive transient
closes without an intervening open produce non-decreasing delays — it
never exceeds the 60000 ms cap, and a connection open resets the
counter to 0.  At 10 or more attempts a transient close exits the
process without scheduling (see the counterexample). -/
theorem C2_backoff_amended :
    (∀ (st : Nat) (sc : Option Nat),
      ¬ (sc.getD 500 = DisconnectReasonLoggedOut ∨ sc.getD 500 = 401 ∨
          sc.getD 500 = 403) →
      st < MAX_RECONNECT_ATTEMPTS →
      (handleConnectionUpdate st (ConnEvent.close sc)).reconnectAttempts = st + 1 ∧
      (handleConnectionUpdate st (ConnEvent.close sc)).actions =
        [ConnAction.scheduleReconnect (min (1000 * (3 / 2 : ℚ) ^ (st + 1)) 60000)]) ∧
    (∀ a b : Nat, a ≤ b → reconnectDelay a ≤ reconnectDelay b) ∧
    (∀ a : Nat, reconnectDelay a ≤ 60000) ∧
    (∀ st : Nat, (handleConnectionUpdate st ConnEvent.opened).reconnectAttempts = 0) := by
  refine ⟨?_, reconnectDelay_mono, reconnectDelay_le_cap, fun st => rfl⟩
  intro st sc hauth hlt
  unfold handleConnectionUpdate
  dsimp only
  rw [if_neg hauth, if_pos hlt]
  exact ⟨rfl, rfl⟩

/-- Closed witness for the amended backoff theorem: the first transient
close moves the counter from 0 to 1 and schedules a 1500 ms retry. -/
theorem C2_backoff_amended_witness :
    (handleConnectionUpdate 0 (ConnEvent.close (some 500))).reconnectAttempts = 0 + 1 ∧
    (handleConnectionUpdate 0 (ConnEvent.close (some 500))).actions =
      [ConnAction.scheduleReconnect (min (1000 * (3 / 2 : ℚ) ^ (0 + 1)) 60000)] :=
  C2_backoff_amended.1 0 (some 500) (by decide) (by decide)

/-- C3: every close classified as authentication-invalidated (status
loggedOut, 401 or 403) clears the credential store — the unlink loop
removes every file of the session folder — before signalling process
termination (`clearCreds` precedes `exitProcess` in the action trace),
and no reconnect is scheduled: the trace is exactly
`[clearCreds, exitProcess]`. -/
theorem C3_auth_close_clears_creds (st : Nat) (sc : Option Nat)
    (files : List String)
    (hauth : sc.getD 500 = DisconnectReasonLoggedOut ∨ sc.getD 500 = 401 ∨
      sc.getD 500 = 403) :
    (handleConnectionUpdate st (ConnEvent.close sc)).actions =
      [ConnAction.clearCreds, ConnAction.exitProcess] ∧
    removeCreds files = [] ∧
    (handleConnectionUpdate st (ConnEvent.close sc)).reconnectAttempts = st := by
  refine ⟨?_, removeCreds_clears files, ?_⟩ <;>
    · unfold handleConnectionUpdate
      dsimp only
      rw [if_pos hauth]

/-- Closed witness for the terminal-auth theorem: a 401 close with a
populated session folder. -/
theorem C3_auth_close_clears_creds_witness :
    (handleConnectionUpdate 3 (ConnEvent.close (some 401))).actions =
      [ConnAction.clearCreds, ConnAction.exitProcess] ∧
    removeCreds ["creds.json", "app-state-sync-key-1.json", "pre-key-1.json"] = [] ∧
    (handleConnectionUpdate 3 (ConnEvent.close (some 401))).reconnectAttempts = 3 :=
  C3_auth_close_clears_creds 3 (some 401)
    ["creds.json", "app-state-sync-key-1.json", "pre-key-1.json"] (by decide)
